import Mathlib

/-!
# Verification of the Orbbec camera node factory claim-coordination logic

Shallow embedding of `src/src/ob_camera_node_factory.cpp` (namespace
`orbbec_camera`). The file models:

* `startDevice` — the single claim attempt (`OBCameraNodeFactory::startDevice`),
  including the cross-process semaphore (`sem_open`/`sem_wait`/`sem_post`),
  the shared-memory claim counter (`shmget`/`shmat`/write/`IPC_RMID`), the
  connection-settle sleep, the serial match loop, and downstream
  `OBCameraNode` construction;
* `queryDevice` — one iteration and runs of the watchdog loop
  (`OBCameraNodeFactory::queryDevice`);
* `deviceConnectCallback` / `deviceDisconnectCallback` — the hotplug entry
  points.

Fallible external calls (semaphore open, semaphore wait, shared-memory get and
attach, `OBCameraNode` construction, device enumeration) are modelled by an
environment record giving each call's outcome; side effects relevant to the
specification (the settle sleep, semaphore posts, whether the candidate scan
ran, whether an exception escaped) are recorded in an explicit trace.
-/

namespace OrbbecCamera

/-- A device descriptor as returned by enumeration; the code only inspects its
serial number (`info->serialNumber()`). -/
structure DeviceDescriptor where
  serial : String
deriving DecidableEq, Repr

/-- Per-process mutable state of `OBCameraNodeFactory`: the held device
(`device_`), the recorded device-info serial (`device_info_`, `none` when the
pointer is null), whether `ob_camera_node_` is live, and `device_connected_`. -/
structure FactoryState where
  device : Option DeviceDescriptor
  deviceInfo : Option String
  nodeActive : Bool
  deviceConnected : Bool
deriving DecidableEq, Repr

/-- Cross-process IPC state: the named semaphore's value, the shared-memory
claim counter (`none` when the segment does not exist), and whether the named
semaphore is still linked. -/
structure IpcState where
  semValue : Int
  segment : Option Nat
  semLinked : Bool
deriving DecidableEq, Repr

/-- Configuration read in `init()`: `serial_number_` (empty = any device),
`connection_delay_`, and `device_num_` (the cohort size). -/
structure Config where
  serialNumber : String
  connectionDelay : Nat
  deviceNum : Nat
deriving DecidableEq, Repr

/-- Outcomes of the fallible external calls made during one claim attempt:
whether `sem_open` succeeds, the return value of `sem_wait` (0 = success),
whether `shmget` and `shmat` succeed, and whether the `OBCameraNode`
constructor returns normally (`false` = it throws). -/
structure Env where
  semOpenOk : Bool
  semWaitRet : Int
  shmgetOk : Bool
  shmatOk : Bool
  constructOk : Bool
deriving DecidableEq, Repr

/-- Observable side effects of one claim attempt: whether the
connection-settle sleep ran, whether the candidate scan loop ran, how many
times `sem_post` was called, and whether an exception escaped the attempt. -/
structure AttemptEffects where
  delayWaited : Bool
  scanned : Bool
  semPosts : Nat
  raised : Bool
deriving DecidableEq, Repr

/-- The trace of an attempt that returned before doing anything observable. -/
def noEffects : AttemptEffects :=
  { delayWaited := false, scanned := false, semPosts := 0, raised := false }

/-- `lower_sn`: the target serial with alphabetic characters lowercased, built
by `std::transform` with `isalpha(ch) ? tolower(ch) : ch`. -/
def toLowerSn (s : String) : String :=
  String.mk (s.data.map (fun c => if c.isAlpha then c.toLower else c))

/-- The per-candidate test of the scan loop:
`serial == serial_number_ || serial == lower_sn`. -/
def serialMatches (target lowerSn : String) (d : DeviceDescriptor) : Bool :=
  d.serial == target || d.serial == lowerSn

/-- The scan loop over `list` (lines 75–84): returns the first candidate whose
serial matches, breaking at the first hit. -/
def findMatch (target lowerSn : String) (l : List DeviceDescriptor) :
    Option DeviceDescriptor :=
  l.find? (serialMatches target lowerSn)

/-- The shared-memory counter update (lines 100–120): `shmget` with
`IPC_CREAT` (creating the segment holding 0 if absent), `shmat`, read the
count, write count + 1, and `IPC_RMID` the segment when the new count reaches
`device_num_`. Returns the new segment contents and
`num_of_connected_devices` (0 when `shmget` or `shmat` failed). -/
def incrementAndMaybeClear (env : Env) (deviceNum : Nat) (segment : Option Nat) :
    Option Nat × Nat :=
  if env.shmgetOk then
    let cur := segment.getD 0
    if env.shmatOk then
      let num := cur + 1
      if num ≥ deviceNum then (none, num) else (some num, num)
    else (some cur, 0)
  else (segment, 0)

/-- Lines 135–147: `CHECK_NOTNULL(device_)`, reset any old node, construct the
new `OBCameraNode`, and on success set `device_connected_` and `device_info_`.
A throwing constructor leaves the node reset and the rest of the state as it
was; the second component records whether the constructor threw. -/
def constructNode (env : Env) (st : FactoryState) : FactoryState × Bool :=
  if env.constructOk then
    ({ st with nodeActive := true, deviceConnected := true,
               deviceInfo := st.device.map DeviceDescriptor.serial }, false)
  else
    ({ st with nodeActive := false }, true)

/-- `OBCameraNodeFactory::startDevice` (lines 45–148): one claim attempt under
`device_lock_`. Returns the new factory state, the new IPC state, and the
observable effects of the attempt. -/
def startDevice (cfg : Config) (env : Env) (st : FactoryState) (ipc : IpcState)
    (list : List DeviceDescriptor) : FactoryState × IpcState × AttemptEffects :=
  if st.device.isSome then (st, ipc, noEffects)
  else if list.length = 0 then (st, ipc, noEffects)
  else
    let tr := { noEffects with delayWaited := true }
    if cfg.serialNumber = "" then
      match list with
      | [] => (st, ipc, tr)
      | d :: _ =>
        let st1 := { st with device := some d }
        let built := constructNode env st1
        (built.1, ipc, { tr with raised := built.2 })
    else
      let lowerSn := toLowerSn cfg.serialNumber
      if env.semOpenOk = false then (st, ipc, tr)
      else if env.semWaitRet = 0 then
        let ipc1 := { ipc with semValue := ipc.semValue - 1 }
        let tr1 := { tr with scanned := true }
        match findMatch cfg.serialNumber lowerSn list with
        | none =>
          (st, { ipc1 with semValue := ipc1.semValue + 1 },
            { tr1 with semPosts := 1 })
        | some d =>
          let inc := incrementAndMaybeClear env cfg.deviceNum ipc1.segment
          let ipc2 := { ipc1 with segment := inc.1, semValue := ipc1.semValue + 1 }
          let ipc3 :=
            if inc.2 = cfg.deviceNum then { ipc2 with semLinked := false } else ipc2
          let st1 := { st with device := some d }
          let built := constructNode env st1
          (built.1, ipc3, { tr1 with semPosts := 1, raised := built.2 })
      else
        (st, { ipc with semValue := ipc.semValue + 1 }, { tr with semPosts := 1 })

/-- `OBCameraNodeFactory::deviceConnectCallback` (lines 156–170): ignore an
empty added list, and call `startDevice` only when no device is held. -/
def deviceConnectCallback (cfg : Config) (env : Env) (st : FactoryState)
    (ipc : IpcState) (list : List DeviceDescriptor) :
    FactoryState × IpcState × AttemptEffects :=
  if list.length = 0 then (st, ipc, noEffects)
  else if st.device.isSome then (st, ipc, noEffects)
  else startDevice cfg env st ipc list

/-- The teardown performed when the held serial is found in a removal list
(lines 184–189): reset `ob_camera_node_`, `device_`, `device_info_`, and
clear `device_connected_`. -/
def clearedState (st : FactoryState) : FactoryState :=
  { st with nodeActive := false, device := none, deviceInfo := none,
            deviceConnected := false }

/-- The loop of `deviceDisconnectCallback` (lines 180–191): for each removed
serial, tear down and break when it equals the recorded device-info serial. -/
def disconnectScan (st : FactoryState) : List String → FactoryState
  | [] => st
  | serial :: rest =>
    match st.deviceInfo with
    | some s => if serial = s then clearedState st else disconnectScan st rest
    | none => disconnectScan st rest

/-- `OBCameraNodeFactory::deviceDisconnectCallback` (lines 172–192): ignore an
empty removal list, otherwise run the scan loop. -/
def deviceDisconnectCallback (st : FactoryState) (removed : List String) :
    FactoryState :=
  if removed.length = 0 then st else disconnectScan st removed

/-- Result of one watchdog iteration: the loop went on to its sleep and next
iteration, broke out because a device is held, or died on an uncaught
exception from enumeration. -/
inductive LoopOutcome where
  | continued
  | broke
  | crashed
deriving DecidableEq, Repr

/-- One iteration of `OBCameraNodeFactory::queryDevice` (lines 211–230):
break if a device is held; enumerate (`ctx_->queryDeviceList()`, NOT inside
the try block, so a raising enumeration kills the loop); if the list is
non-empty, run `startDevice` inside try/catch, so exceptions from it are
swallowed and the loop continues. -/
def queryDeviceStep (cfg : Config) (st : FactoryState) (ipc : IpcState)
    (enum : Except Unit (List DeviceDescriptor)) (env : Env) :
    FactoryState × IpcState × LoopOutcome :=
  if st.device.isSome then (st, ipc, LoopOutcome.broke)
  else
    match enum with
    | Except.error _ => (st, ipc, LoopOutcome.crashed)
    | Except.ok list =>
      if list.length > 0 then
        let r := startDevice cfg env st ipc list
        (r.1, r.2.1, LoopOutcome.continued)
      else (st, ipc, LoopOutcome.continued)

/-- A finite run of the watchdog loop, driven by one enumeration result and
one environment per iteration. The boolean is `true` when the run ended with
an uncaught exception. -/
def queryDeviceRun (cfg : Config) (st : FactoryState) (ipc : IpcState) :
    List (Except Unit (List DeviceDescriptor) × Env) →
    FactoryState × IpcState × Bool
  | [] => (st, ipc, false)
  | (enum, env) :: rest =>
    match queryDeviceStep cfg st ipc enum env with
    | (st1, ipc1, LoopOutcome.continued) => queryDeviceRun cfg st1 ipc1 rest
    | (st1, ipc1, LoopOutcome.broke) => (st1, ipc1, false)
    | (st1, ipc1, LoopOutcome.crashed) => (st1, ipc1, true)

/-- An idle factory: no device, no info, no node, not connected. -/
def idleState : FactoryState :=
  { device := none, deviceInfo := none, nodeActive := false,
    deviceConnected := false }

/-- Initial IPC state: semaphore value 1 (fresh `sem_open` with initial value
1), counter segment absent, semaphore linked. -/
def ipcInit : IpcState :=
  { semValue := 1, segment := none, semLinked := true }

/-- An environment in which every external call succeeds. -/
def envAllOk : Env :=
  { semOpenOk := true, semWaitRet := 0, shmgetOk := true, shmatOk := true,
    constructOk := true }

/-- An environment in which `OBCameraNode` construction throws and everything
else succeeds. -/
def envBuildFails : Env :=
  { semOpenOk := true, semWaitRet := 0, shmgetOk := true, shmatOk := true,
    constructOk := false }

theorem disconnectScan_of_info_none (st : FactoryState)
    (h : st.deviceInfo = none) : ∀ l : List String, disconnectScan st l = st := by
  intro l
  induction l with
  | nil => rfl
  | cons a rest ih => simpa [disconnectScan, h] using ih

theorem disconnectScan_of_mem (st : FactoryState) (s : String)
    (h : st.deviceInfo = some s) :
    ∀ l : List String, s ∈ l → disconnectScan st l = clearedState st := by
  intro l
  induction l with
  | nil => intro hm; cases hm
  | cons a rest ih =>
    intro hm
    by_cases ha : a = s
    · simp [disconnectScan, h, ha]
    · have hmem : s ∈ rest := by
        rcases List.mem_cons.mp hm with h1 | h1
        · exact absurd h1.symm ha
        · exact h1
      simp [disconnectScan, h, ha, ih hmem]

theorem disconnectScan_of_not_mem (st : FactoryState) (s : String)
    (h : st.deviceInfo = some s) :
    ∀ l : List String, s ∉ l → disconnectScan st l = st := by
  intro l
  induction l with
  | nil => intro _; rfl
  | cons a rest ih =>
    intro hm
    have ha : a ≠ s := fun h1 => hm (h1 ▸ List.mem_cons_self a rest)
    have hrest : s ∉ rest := fun h1 => hm (List.mem_cons_of_mem a h1)
    simp [disconnectScan, h, ha, ih hrest]

/-- C9: for every state, a claim attempt on an empty candidate list returns
before the settle sleep, leaves the factory state and the IPC state
unchanged, and produces no observable effect; the hotplug add callback on an
empty list is likewise a no-op. -/
theorem C9_empty_candidates (cfg : Config) (env : Env) (st : FactoryState)
    (ipc : IpcState) :
    startDevice cfg env st ipc [] = (st, ipc, noEffects) ∧
    deviceConnectCallback cfg env st ipc [] = (st, ipc, noEffects) := by
  refine ⟨?_, by simp [deviceConnectCallback]⟩
  cases h : st.device <;> simp [startDevice, h]

/-- C7: a candidate passes the serial match exactly when its serial equals
the configured target or the precomputed case-lowered form of the target;
in particular the lowered form of "ABC123" is "abc123", and a claim attempt
targeting "ABC123" selects a candidate whose serial is "abc123". -/
theorem C7_serial_match :
    (∀ (target : String) (d : DeviceDescriptor),
        serialMatches target (toLowerSn target) d = true ↔
          (d.serial = target ∨ d.serial = toLowerSn target)) ∧
    toLowerSn "ABC123" = "abc123" ∧
    (startDevice ⟨"ABC123", 1, 1⟩ envAllOk idleState ipcInit
        [⟨"abc123"⟩]).1.device = some ⟨"abc123"⟩ := by
  refine ⟨?_, by decide, by decide⟩
  intro target d
  simp [serialMatches]

/-- C4: when the shared segment is obtained and attached, the counter update
returns the previous count plus one and deletes the segment exactly when that
new count reaches the cohort size (retaining it with the new count
otherwise); with cohort size 2 the counter goes 0 to 1 with the segment
retained, then 1 to 2 with the segment removed. -/
theorem C4_counter_increment (env : Env) (deviceNum : Nat) (seg : Option Nat)
    (hget : env.shmgetOk = true) (hat : env.shmatOk = true) :
    (incrementAndMaybeClear env deviceNum seg).2 = seg.getD 0 + 1 ∧
    (incrementAndMaybeClear env deviceNum seg).1 =
      (if deviceNum ≤ seg.getD 0 + 1 then none else some (seg.getD 0 + 1)) ∧
    incrementAndMaybeClear envAllOk 2 (some 0) = (some 1, 1) ∧
    incrementAndMaybeClear envAllOk 2 (some 1) = (none, 2) := by
  refine ⟨?_, ?_, by decide, by decide⟩ <;>
    simp [incrementAndMaybeClear, hget, hat] <;> split <;> simp

theorem C4_counter_increment_witness :
    (incrementAndMaybeClear envAllOk 3 (some 1)).2 = 2 ∧
    (incrementAndMaybeClear envAllOk 3 (some 1)).1 =
      (if 3 ≤ 2 then none else some 2) ∧
    incrementAndMaybeClear envAllOk 2 (some 0) = (some 1, 1) ∧
    incrementAndMaybeClear envAllOk 2 (some 1) = (none, 2) :=
  C4_counter_increment envAllOk 3 (some 1) rfl rfl

/-- C1 counterexample: a claim attempt targeting serial "X" that matches a
candidate and then fails downstream construction leaves the held device
reference set (the state is not rolled back to Idle), and the very next
watchdog iteration breaks out because a device is held instead of retrying. -/
theorem C1_no_rollback_cex :
    (startDevice ⟨"X", 1, 1⟩ envBuildFails idleState ⟨1, none, true⟩
        [⟨"X"⟩]).1.device = some ⟨"X"⟩ ∧
    (startDevice ⟨"X", 1, 1⟩ envBuildFails idleState ⟨1, none, true⟩
        [⟨"X"⟩]).2.2.raised = true ∧
    (queryDeviceStep ⟨"X", 1, 1⟩
        (startDevice ⟨"X", 1, 1⟩ envBuildFails idleState ⟨1, none, true⟩
          [⟨"X"⟩]).1
        ⟨1, none, true⟩ (Except.ok [⟨"X"⟩]) envAllOk).2.2 =
      LoopOutcome.broke := by decide

/-- C2 counterexample: a watchdog run whose first iteration raises during
enumeration terminates abnormally without ever claiming a device, even though
the very same later input would have produced a successful claim. -/
theorem C2_enumeration_uncaught_cex :
    (queryDeviceRun ⟨"", 1, 1⟩ idleState ipcInit
        [(Except.error (), envAllOk), (Except.ok [⟨"X"⟩], envAllOk)]).2.2 =
      true ∧
    (queryDeviceRun ⟨"", 1, 1⟩ idleState ipcInit
        [(Except.error (), envAllOk), (Except.ok [⟨"X"⟩], envAllOk)]).1.device =
      none ∧
    (queryDeviceRun ⟨"", 1, 1⟩ idleState ipcInit
        [(Except.ok [⟨"X"⟩], envAllOk)]).1.device = some ⟨"X"⟩ := by decide

/-- C3 counterexample: a claim attempt targeting serial "X" whose candidate
list holds only serial "Y" finds no match, yet the connection-settle sleep is
executed during the attempt. -/
theorem C3_delay_before_match_cex :
    (startDevice ⟨"X", 1, 1⟩ envAllOk idleState ipcInit [⟨"Y"⟩]).1.device =
      none ∧
    (startDevice ⟨"X", 1, 1⟩ envAllOk idleState ipcInit
        [⟨"Y"⟩]).2.2.delayWaited = true := by decide

/-- C1 (amended): whenever a claim attempt selects a device descriptor —
locally as the first candidate when no target serial is configured, or via
the cross-process match when one is — and downstream construction then
fails, the exception escapes the attempt and the local state is NOT rolled
back: the held device reference stays set, while `device_connected_` and
`device_info_` keep their prior values; the cross-process counter update
(performed only on the coordinated path) is likewise not rolled back. -/
theorem C1_construction_failure_no_rollback (cfg : Config) (env : Env)
    (st : FactoryState) (ipc : IpcState) (list : List DeviceDescriptor)
    (d : DeviceDescriptor) (hdev : st.device = none)
    (hsel : if cfg.serialNumber = "" then list.head? = some d
      else env.semOpenOk = true ∧ env.semWaitRet = 0 ∧
        findMatch cfg.serialNumber (toLowerSn cfg.serialNumber) list = some d)
    (hcons : env.constructOk = false) :
    (startDevice cfg env st ipc list).1.device = some d ∧
    (startDevice cfg env st ipc list).1.deviceConnected = st.deviceConnected ∧
    (startDevice cfg env st ipc list).1.deviceInfo = st.deviceInfo ∧
    (startDevice cfg env st ipc list).2.2.raised = true ∧
    (startDevice cfg env st ipc list).2.1.segment =
      (if cfg.serialNumber = "" then ipc.segment
        else (incrementAndMaybeClear env cfg.deviceNum ipc.segment).1) := by
  by_cases hs : cfg.serialNumber = ""
  · rw [if_pos hs] at hsel
    obtain ⟨d0, rest, rfl⟩ : ∃ d0 rest, list = d0 :: rest := by
      cases list with
      | nil => cases hsel
      | cons d0 rest => exact ⟨d0, rest, rfl⟩
    have hd : d0 = d := by
      simpa [List.head?] using hsel
    subst hd
    simp only [startDevice, hdev, Option.isSome_none, Bool.false_eq_true,
      if_false, List.length_cons, Nat.succ_ne_zero, if_pos hs]
    refine ⟨?_, ?_, ?_, ?_, ?_⟩ <;> simp [constructNode, hcons, hs]
  · rw [if_neg hs] at hsel
    obtain ⟨hopen, hwait, hmatch⟩ := hsel
    have hne : list ≠ [] := by
      intro h
      rw [h] at hmatch
      simp [findMatch] at hmatch
    obtain ⟨d0, rest, rfl⟩ : ∃ d0 rest, list = d0 :: rest := by
      cases list with
      | nil => exact absurd rfl hne
      | cons d0 rest => exact ⟨d0, rest, rfl⟩
    simp only [startDevice, hdev, Option.isSome_none, Bool.false_eq_true,
      if_false, List.length_cons, Nat.succ_ne_zero, if_neg hs, hopen, hwait,
      Bool.true_eq_false, if_pos rfl, hmatch]
    refine ⟨?_, ?_, ?_, ?_, ?_⟩ <;> simp [constructNode, hcons, hs] <;>
      split <;> rfl

theorem C1_construction_failure_no_rollback_witness :
    ((startDevice ⟨"", 1, 1⟩ envBuildFails idleState ipcInit
        [⟨"A"⟩, ⟨"B"⟩]).1.device = some ⟨"A"⟩ ∧
      (startDevice ⟨"", 1, 1⟩ envBuildFails idleState ipcInit
        [⟨"A"⟩, ⟨"B"⟩]).1.deviceConnected = idleState.deviceConnected ∧
      (startDevice ⟨"", 1, 1⟩ envBuildFails idleState ipcInit
        [⟨"A"⟩, ⟨"B"⟩]).1.deviceInfo = idleState.deviceInfo ∧
      (startDevice ⟨"", 1, 1⟩ envBuildFails idleState ipcInit
        [⟨"A"⟩, ⟨"B"⟩]).2.2.raised = true ∧
      (startDevice ⟨"", 1, 1⟩ envBuildFails idleState ipcInit
        [⟨"A"⟩, ⟨"B"⟩]).2.1.segment =
        (if ("" : String) = "" then ipcInit.segment
          else (incrementAndMaybeClear envBuildFails 1 ipcInit.segment).1)) ∧
    ((startDevice ⟨"Y", 1, 2⟩ envBuildFails idleState ipcInit
        [⟨"Z"⟩, ⟨"Y"⟩]).1.device = some ⟨"Y"⟩ ∧
      (startDevice ⟨"Y", 1, 2⟩ envBuildFails idleState ipcInit
        [⟨"Z"⟩, ⟨"Y"⟩]).1.deviceConnected = idleState.deviceConnected ∧
      (startDevice ⟨"Y", 1, 2⟩ envBuildFails idleState ipcInit
        [⟨"Z"⟩, ⟨"Y"⟩]).1.deviceInfo = idleState.deviceInfo ∧
      (startDevice ⟨"Y", 1, 2⟩ envBuildFails idleState ipcInit
        [⟨"Z"⟩, ⟨"Y"⟩]).2.2.raised = true ∧
      (startDevice ⟨"Y", 1, 2⟩ envBuildFails idleState ipcInit
        [⟨"Z"⟩, ⟨"Y"⟩]).2.1.segment =
        (if ("Y" : String) = "" then ipcInit.segment
          else (incrementAndMaybeClear envBuildFails 2 ipcInit.segment).1)) :=
  ⟨C1_construction_failure_no_rollback ⟨"", 1, 1⟩ envBuildFails idleState
      ipcInit [⟨"A"⟩, ⟨"B"⟩] ⟨"A"⟩ rfl (by decide) rfl,
    C1_construction_failure_no_rollback ⟨"Y", 1, 2⟩ envBuildFails idleState
      ipcInit [⟨"Z"⟩, ⟨"Y"⟩] ⟨"Y"⟩ rfl (by decide) rfl⟩

/-- C2 (amended): in one watchdog iteration with no device held, an error
raised by the device-directory enumeration is not caught and terminates the
loop with the state unchanged, whereas a successful enumeration always lets
the loop continue — exceptions thrown below `startDevice` (including
construction failures) are caught there. -/
theorem C2_enumeration_error_crashes_loop (cfg : Config) (st : FactoryState)
    (ipc : IpcState) (env : Env) (list : List DeviceDescriptor)
    (hdev : st.device = none) :
    queryDeviceStep cfg st ipc (Except.error ()) env =
      (st, ipc, LoopOutcome.crashed) ∧
    (queryDeviceStep cfg st ipc (Except.ok list) env).2.2 =
      LoopOutcome.continued := by
  constructor
  · simp [queryDeviceStep, hdev]
  · simp only [queryDeviceStep, hdev, Option.isSome_none, Bool.false_eq_true,
      if_false]
    split <;> rfl

theorem C2_enumeration_error_crashes_loop_witness :
    queryDeviceStep ⟨"X", 1, 1⟩ idleState ipcInit (Except.error ())
        envBuildFails = (idleState, ipcInit, LoopOutcome.crashed) ∧
    (queryDeviceStep ⟨"X", 1, 1⟩ idleState ipcInit (Except.ok [⟨"X"⟩])
        envBuildFails).2.2 = LoopOutcome.continued :=
  C2_enumeration_error_crashes_loop ⟨"X", 1, 1⟩ idleState ipcInit
    envBuildFails [⟨"X"⟩] rfl

/-- C3 (amended): the connection-settle sleep runs once at the start of every
claim attempt that passes the held-device and empty-list guards — before the
serial match and before construction, so attempts that end with no match
incur it too — and an attempt on an empty list does not sleep. -/
theorem C3_delay_on_every_guarded_attempt (cfg : Config) (env : Env)
    (st : FactoryState) (ipc : IpcState) (list : List DeviceDescriptor)
    (hdev : st.device = none) (hne : list ≠ []) :
    (startDevice cfg env st ipc list).2.2.delayWaited = true ∧
    (startDevice cfg env st ipc []).2.2.delayWaited = false := by
  obtain ⟨d0, rest, rfl⟩ : ∃ d0 rest, list = d0 :: rest := by
    cases list with
    | nil => exact absurd rfl hne
    | cons d0 rest => exact ⟨d0, rest, rfl⟩
  refine ⟨?_, by simp [startDevice, hdev, noEffects]⟩
  simp only [startDevice, hdev, Option.isSome_none, Bool.false_eq_true,
    if_false, List.length_cons, Nat.succ_ne_zero]
  split
  · rfl
  · split
    · rfl
    · split
      · split <;> rfl
      · rfl

theorem C3_delay_on_every_guarded_attempt_witness :
    (startDevice ⟨"X", 1, 1⟩ envAllOk idleState ipcInit
        [⟨"Q"⟩]).2.2.delayWaited = true ∧
    (startDevice ⟨"X", 1, 1⟩ envAllOk idleState ipcInit []).2.2.delayWaited =
      false :=
  C3_delay_on_every_guarded_attempt ⟨"X", 1, 1⟩ envAllOk idleState ipcInit
    [⟨"Q"⟩] rfl (by decide)

/-- C5: whenever a claim attempt with a configured target serial passes the
guards and the semaphore wait succeeds, the attempt posts the semaphore
exactly once before returning — on every exit path: match found, no match
found, and shared-segment get or attach failure. -/
theorem C5_semaphore_released_once (cfg : Config) (env : Env)
    (st : FactoryState) (ipc : IpcState) (list : List DeviceDescriptor)
    (hser : cfg.serialNumber ≠ "") (hdev : st.device = none) (hne : list ≠ [])
    (hopen : env.semOpenOk = true) (hwait : env.semWaitRet = 0) :
    (startDevice cfg env st ipc list).2.2.semPosts = 1 := by
  obtain ⟨d0, rest, rfl⟩ : ∃ d0 rest, list = d0 :: rest := by
    cases list with
    | nil => exact absurd rfl hne
    | cons d0 rest => exact ⟨d0, rest, rfl⟩
  simp only [startDevice, hdev, Option.isSome_none, Bool.false_eq_true,
    if_false, List.length_cons, Nat.succ_ne_zero, if_neg hser, hopen,
    Bool.true_eq_false, if_pos hwait]
  split <;> rfl

theorem C5_semaphore_released_once_witness :
    (startDevice ⟨"A", 1, 2⟩ ⟨true, 0, false, false, true⟩ idleState ipcInit
        [⟨"B"⟩]).2.2.semPosts = 1 :=
  C5_semaphore_released_once ⟨"A", 1, 2⟩ ⟨true, 0, false, false, true⟩
    idleState ipcInit [⟨"B"⟩] (by decide) rfl (by decide) rfl rfl

/-- C6: with no configured target serial, a guarded claim attempt on a
non-empty candidate list selects exactly the first candidate, leaves the IPC
state untouched, posts the semaphore zero times, and never runs the
cross-process match scan. -/
theorem C6_first_candidate_no_coordination (cfg : Config) (env : Env)
    (st : FactoryState) (ipc : IpcState) (d : DeviceDescriptor)
    (rest : List DeviceDescriptor) (hser : cfg.serialNumber = "")
    (hdev : st.device = none) :
    (startDevice cfg env st ipc (d :: rest)).1.device = some d ∧
    (startDevice cfg env st ipc (d :: rest)).2.1 = ipc ∧
    (startDevice cfg env st ipc (d :: rest)).2.2.semPosts = 0 ∧
    (startDevice cfg env st ipc (d :: rest)).2.2.scanned = false := by
  simp only [startDevice, hdev, Option.isSome_none, Bool.false_eq_true,
    if_false, List.length_cons, Nat.succ_ne_zero, if_pos hser]
  refine ⟨?_, ?_, ?_, ?_⟩ <;> simp [constructNode, noEffects]
  split <;> rfl

theorem C6_first_candidate_no_coordination_witness :
    (startDevice ⟨"", 1, 1⟩ envAllOk idleState ipcInit
        [⟨"B"⟩, ⟨"A"⟩]).1.device = some ⟨"B"⟩ ∧
    (startDevice ⟨"", 1, 1⟩ envAllOk idleState ipcInit [⟨"B"⟩, ⟨"A"⟩]).2.1 =
      ipcInit ∧
    (startDevice ⟨"", 1, 1⟩ envAllOk idleState ipcInit
        [⟨"B"⟩, ⟨"A"⟩]).2.2.semPosts = 0 ∧
    (startDevice ⟨"", 1, 1⟩ envAllOk idleState ipcInit
        [⟨"B"⟩, ⟨"A"⟩]).2.2.scanned = false :=
  C6_first_candidate_no_coordination ⟨"", 1, 1⟩ envAllOk idleState ipcInit
    ⟨"B"⟩ [⟨"A"⟩] rfl rfl

/-- C8: a removal notification tears the session down and returns to Idle
exactly when a device-info serial is recorded and appears in the removed
list, and is a no-op otherwise (serial absent, or nothing held); processing
the same notification twice gives the same state as processing it once. -/
theorem C8_removal_idempotent (st : FactoryState) (removed : List String) :
    deviceDisconnectCallback st removed =
      (match st.deviceInfo with
        | some s => if s ∈ removed then clearedState st else st
        | none => st) ∧
    deviceDisconnectCallback (deviceDisconnectCallback st removed) removed =
      deviceDisconnectCallback st removed := by
  have key : ∀ st2 : FactoryState,
      deviceDisconnectCallback st2 removed =
        (match st2.deviceInfo with
          | some s => if s ∈ removed then clearedState st2 else st2
          | none => st2) := by
    intro st2
    cases hinfo : st2.deviceInfo with
    | none =>
      simp only [deviceDisconnectCallback, hinfo]
      split
      · rfl
      · exact disconnectScan_of_info_none st2 hinfo removed
    | some s =>
      by_cases hmem : s ∈ removed
      · have hne : ¬ removed.length = 0 := by
          intro h0
          rw [List.length_eq_zero] at h0
          rw [h0] at hmem
          cases hmem
        simp only [deviceDisconnectCallback, hinfo, if_neg hne, if_pos hmem]
        exact disconnectScan_of_mem st2 s hinfo removed hmem
      · simp only [deviceDisconnectCallback, hinfo, if_neg hmem]
        split
        · rfl
        · exact disconnectScan_of_not_mem st2 s hinfo removed hmem
  refine ⟨key st, ?_⟩
  cases hinfo : st.deviceInfo with
  | none =>
    have h1 : deviceDisconnectCallback st removed = st := by
      simp [key st, hinfo]
    rw [h1]
    exact h1
  | some s =>
    by_cases hmem : s ∈ removed
    · have h1 : deviceDisconnectCallback st removed = clearedState st := by
        simp [key st, hinfo, hmem]
      have h2 : (clearedState st).deviceInfo = none := rfl
      rw [h1]
      simp [key (clearedState st), h2]
    · have h1 : deviceDisconnectCallback st removed = st := by
        simp [key st, hinfo, hmem]
      rw [h1]
      exact h1

/-- C10: when the semaphore wait itself fails during a claim attempt with a
configured target serial, the candidate scan never runs, no device is
claimed, the factory state is returned unchanged, and the semaphore is still
posted exactly once — leaving the semaphore value one higher than before the
attempt, with the counter segment untouched. -/
theorem C10_failed_wait_still_posts (cfg : Config) (env : Env)
    (st : FactoryState) (ipc : IpcState) (list : List DeviceDescriptor)
    (hser : cfg.serialNumber ≠ "") (hdev : st.device = none) (hne : list ≠ [])
    (hopen : env.semOpenOk = true) (hwait : env.semWaitRet ≠ 0) :
    (startDevice cfg env st ipc list).1 = st ∧
    (startDevice cfg env st ipc list).2.2.scanned = false ∧
    (startDevice cfg env st ipc list).2.2.semPosts = 1 ∧
    (startDevice cfg env st ipc list).2.1.semValue = ipc.semValue + 1 ∧
    (startDevice cfg env st ipc list).2.1.segment = ipc.segment := by
  obtain ⟨d0, rest, rfl⟩ : ∃ d0 rest, list = d0 :: rest := by
    cases list with
    | nil => exact absurd rfl hne
    | cons d0 rest => exact ⟨d0, rest, rfl⟩
  simp only [startDevice, hdev, Option.isSome_none, Bool.false_eq_true,
    if_false, List.length_cons, Nat.succ_ne_zero, if_neg hser, hopen,
    Bool.true_eq_false, if_neg hwait]
  simp [noEffects]

theorem C10_failed_wait_still_posts_witness :
    (startDevice ⟨"X", 1, 1⟩ ⟨true, -1, true, true, true⟩ idleState
        ⟨1, some 0, true⟩ [⟨"X"⟩]).1 = idleState ∧
    (startDevice ⟨"X", 1, 1⟩ ⟨true, -1, true, true, true⟩ idleState
        ⟨1, some 0, true⟩ [⟨"X"⟩]).2.2.scanned = false ∧
    (startDevice ⟨"X", 1, 1⟩ ⟨true, -1, true, true, true⟩ idleState
        ⟨1, some 0, true⟩ [⟨"X"⟩]).2.2.semPosts = 1 ∧
    (startDevice ⟨"X", 1, 1⟩ ⟨true, -1, true, true, true⟩ idleState
        ⟨1, some 0, true⟩ [⟨"X"⟩]).2.1.semValue =
      (⟨1, some 0, true⟩ : IpcState).semValue + 1 ∧
    (startDevice ⟨"X", 1, 1⟩ ⟨true, -1, true, true, true⟩ idleState
        ⟨1, some 0, true⟩ [⟨"X"⟩]).2.1.segment =
      (⟨1, some 0, true⟩ : IpcState).segment :=
  C10_failed_wait_still_posts ⟨"X", 1, 1⟩ ⟨true, -1, true, true, true⟩
    idleState ⟨1, some 0, true⟩ [⟨"X"⟩] (by decide) rfl (by decide) rfl
    (by decide)

end OrbbecCamera
